import Mathlib

/-!
Verification of the cryostat cooldown thermal solver
(src/Manchester_cryostat_cooldown.py) against its specification.

The script is an explicit forward-Euler time-marching loop over
module-level numpy arrays.  We embed it shallowly over the reals:
the loop body becomes `step`, the module-level arrays become the
fields of `SimulationState`, the script's constants (generalized to
a `SimulationConfig`, as the spec's data model describes them) are
the parameters, and the while loop `while globaltime[-1] < endtime`
is captured by `run` together with `numSteps`, the exact number of
iterations the loop performs.

The two scipy interp2d objects (lines 87-88) are external library
state; they enter the embedding as the opaque-function fields
`Qmap1`, `Qmap2` of the configuration, exactly as the loop body
consumes them.
-/

namespace Cryo

noncomputable section

/-- Stefan-Boltzmann constant, source line 42. -/
def stefboltz : ℝ := 5.67e-8

/-- Base-10 logarithm over the reals, embedding numpy's log10. -/
def log10 (x : ℝ) : ℝ := Real.logb 10 x

/-- Stage-1 copper specific heat, transcribed from source line 106 with
its exact term grouping (note the nesting of the degree-5 and degree-6
terms in the original expression). -/
def cp_stage1 (T : ℝ) : ℝ :=
  (10 : ℝ) ^ ((-1.91844) + (-0.15973 * log10 T) + (8.61013 * (log10 T) ^ 2) +
    (-18.99640 * (log10 T) ^ 3) + (21.96610 * (log10 T) ^ 4) +
    (-12.73280 * (log10 T) ^ 5 + (3.54322 * (log10 T) ^ 6)) +
    (-0.37970 * (log10 T) ^ 7))

/-- Stage-2 copper specific heat, transcribed from source line 111 with
its exact term grouping. -/
def cp_stage2 (T : ℝ) : ℝ :=
  (10 : ℝ) ^ ((-1.91844) + (-0.15973 * log10 T) + (8.61013 * (log10 T) ^ 2) +
    (-18.99640 * (log10 T) ^ 3) + (21.96610 * (log10 T) ^ 4) +
    (-12.73280 * (log10 T) ^ 5 + (3.54322 * (log10 T) ^ 6)) +
    (-0.37970 * (log10 T) ^ 7))

/-- The spec's Material Model (section 4.2): cp = 10^P(log10 T) where P is
the fixed 7th-degree polynomial with the stated coefficients, summed term
by term.  This definition follows the spec's words; the theorems compare
it with `cp_stage1` and `cp_stage2`, which are transcribed from the code. -/
def specificHeat (T : ℝ) : ℝ :=
  (10 : ℝ) ^ ((-1.91844) * log10 T ^ 0 + (-0.15973) * log10 T ^ 1 +
    8.61013 * log10 T ^ 2 + (-18.99640) * log10 T ^ 3 + 21.96610 * log10 T ^ 4 +
    (-12.73280) * log10 T ^ 5 + 3.54322 * log10 T ^ 6 + (-0.37970) * log10 T ^ 7)

/-- The spec's heat capacity: specific heat times mass (section 4.2). -/
def heatCapacity (T mass : ℝ) : ℝ := specificHeat T * mass

/-- The run's configuration: the script's module-level constants
(lines 33-64) generalized to parameters, plus the two cooler
heat-lift interpolants (lines 87-88) as opaque query functions. -/
structure SimulationConfig where
  endtime : ℝ
  timestep : ℝ
  A_1 : ℝ
  eps1 : ℝ
  m_1 : ℝ
  A_2 : ℝ
  eps2 : ℝ
  m_2 : ℝ
  T0init : ℝ
  T1init : ℝ
  T2init : ℝ
  Qmap1 : ℝ → ℝ → ℝ
  Qmap2 : ℝ → ℝ → ℝ

/-- The module-level history arrays the loop mutates:
globaltime (line 36), T_0/T_1/T_2 (lines 50, 57, 64) and the four
heat-flow records (lines 70-74). -/
structure SimulationState where
  globaltime : List ℝ
  T_0 : List ℝ
  T_1 : List ℝ
  T_2 : List ℝ
  Qdot1_record : List ℝ
  Qdot2_record : List ℝ
  QRdot1_record : List ℝ
  QRdot2_record : List ℝ

/-- The state just before the loop: every array holds exactly its
initial entry (lines 36, 50, 57, 64, 70-74). -/
def initState (cfg : SimulationConfig) : SimulationState where
  globaltime := [0]
  T_0 := [cfg.T0init]
  T_1 := [cfg.T1init]
  T_2 := [cfg.T2init]
  Qdot1_record := [0]
  Qdot2_record := [0]
  QRdot1_record := [0]
  QRdot2_record := [0]

/-- One iteration of the solver loop (source lines 94-175).  Every
quantity is computed from the last entries of the pre-step arrays --
exactly as in the source, where no array is read after it has been
appended to within the same iteration -- and each array is appended
exactly once. -/
def step (cfg : SimulationConfig) (s : SimulationState) : SimulationState :=
  let T0 := s.T_0.getLastD 0
  let T1 := s.T_1.getLastD 0
  let T2 := s.T_2.getLastD 0
  let cp_1 := cp_stage1 T1
  let Cp_1 := cp_1 * cfg.m_1
  let cp_2 := cp_stage2 T2
  let Cp_2 := cp_2 * cfg.m_2
  let Qdot1 := cfg.Qmap1 T1 T2
  let Q1 := Qdot1 * cfg.timestep
  let QRdot1 := cfg.A_1 * cfg.eps1 * stefboltz * (T0 ^ 4 - T1 ^ 4)
  let QR1 := QRdot1 * cfg.timestep
  let Qdot2 := cfg.Qmap2 T1 T2
  let Q2 := Qdot2 * cfg.timestep
  let QRdot2 := cfg.A_2 * cfg.eps2 * stefboltz * (T1 ^ 4 - T2 ^ 4)
  let QR2 := QRdot2 * cfg.timestep
  let T_0_new := T0
  let T_1_new := T1 + (-Q1 + QR1 - QR2) / Cp_1
  let T_2_new := T2 + (-Q2 + QR1) / Cp_2
  let time_new := s.globaltime.getLastD 0 + cfg.timestep
  { globaltime := s.globaltime ++ [time_new]
    T_0 := s.T_0 ++ [T_0_new]
    T_1 := s.T_1 ++ [T_1_new]
    T_2 := s.T_2 ++ [T_2_new]
    Qdot1_record := s.Qdot1_record ++ [Qdot1]
    Qdot2_record := s.Qdot2_record ++ [Qdot2]
    QRdot1_record := s.QRdot1_record ++ [QRdot1]
    QRdot2_record := s.QRdot2_record ++ [QRdot2] }

/-- The state after `n` iterations of the loop body. -/
def run (cfg : SimulationConfig) : ℕ → SimulationState
  | 0 => initState cfg
  | n + 1 => step cfg (run cfg n)

/-- The loop guard of `while globaltime[-1] < endtime` (line 94). -/
def loopGuard (cfg : SimulationConfig) (s : SimulationState) : Prop :=
  s.globaltime.getLastD 0 < cfg.endtime

/-- The number of iterations the while loop performs: the least k with
k * timestep >= endtime (established by `guard_iff_lt_numSteps`). -/
def numSteps (cfg : SimulationConfig) : ℕ := ⌈cfg.endtime / cfg.timestep⌉₊

/-- The state when the loop exits. -/
def finalState (cfg : SimulationConfig) : SimulationState :=
  run cfg (numSteps cfg)

end

/-! ### Structural lemmas about the loop -/

lemma run_succ (cfg : SimulationConfig) (n : ℕ) :
    run cfg (n + 1) = step cfg (run cfg n) := rfl

lemma getLastD_replicate (n : ℕ) (x : ℝ) :
    ∀ d, (List.replicate (n + 1) x).getLastD d = x := by
  induction n with
  | zero => intro d; rfl
  | succ n ih =>
      intro d
      rw [List.replicate_succ, List.getLastD_cons]
      exact ih x

lemma run_lengths (cfg : SimulationConfig) (n : ℕ) :
    (run cfg n).globaltime.length = n + 1 ∧
    (run cfg n).T_0.length = n + 1 ∧
    (run cfg n).T_1.length = n + 1 ∧
    (run cfg n).T_2.length = n + 1 ∧
    (run cfg n).Qdot1_record.length = n + 1 ∧
    (run cfg n).Qdot2_record.length = n + 1 ∧
    (run cfg n).QRdot1_record.length = n + 1 ∧
    (run cfg n).QRdot2_record.length = n + 1 := by
  induction n with
  | zero => simp [run, initState]
  | succ n ih =>
      obtain ⟨h1, h2, h3, h4, h5, h6, h7, h8⟩ := ih
      simp [run_succ, step, h1, h2, h3, h4, h5, h6, h7, h8]

lemma step_take (cfg : SimulationConfig) (s : SimulationState) :
    (step cfg s).globaltime.take s.globaltime.length = s.globaltime ∧
    (step cfg s).T_0.take s.T_0.length = s.T_0 ∧
    (step cfg s).T_1.take s.T_1.length = s.T_1 ∧
    (step cfg s).T_2.take s.T_2.length = s.T_2 ∧
    (step cfg s).Qdot1_record.take s.Qdot1_record.length = s.Qdot1_record ∧
    (step cfg s).Qdot2_record.take s.Qdot2_record.length = s.Qdot2_record ∧
    (step cfg s).QRdot1_record.take s.QRdot1_record.length = s.QRdot1_record ∧
    (step cfg s).QRdot2_record.take s.QRdot2_record.length = s.QRdot2_record := by
  refine ⟨?_, ?_, ?_, ?_, ?_, ?_, ?_, ?_⟩ <;>
    simp [step, List.take_left]

lemma getLastD_map_range (f : ℕ → ℝ) (n : ℕ) (d : ℝ) :
    ((List.range (n + 1)).map f).getLastD d = f n := by
  rw [List.range_succ (n := n), List.map_append, List.map_singleton,
    List.getLastD_concat]

lemma run_globaltime (cfg : SimulationConfig) (n : ℕ) :
    (run cfg n).globaltime =
      (List.range (n + 1)).map (fun i : ℕ => (i : ℝ) * cfg.timestep) := by
  induction n with
  | zero =>
      rw [List.range_succ (n := 0)]
      simp [run, initState]
  | succ n ih =>
      rw [run_succ]
      show (run cfg n).globaltime ++
          [(run cfg n).globaltime.getLastD 0 + cfg.timestep] = _
      rw [ih, getLastD_map_range, List.range_succ (n := n + 1),
        List.map_append, List.map_singleton]
      have hx : (n : ℝ) * cfg.timestep + cfg.timestep =
          ((n + 1 : ℕ) : ℝ) * cfg.timestep := by push_cast; ring
      rw [hx]

lemma run_lastTime (cfg : SimulationConfig) (n : ℕ) :
    (run cfg n).globaltime.getLastD 0 = (n : ℝ) * cfg.timestep := by
  rw [run_globaltime, getLastD_map_range]

lemma getD_map_range (f : ℕ → ℝ) (m i : ℕ) (h : i < m) (d : ℝ) :
    ((List.range m).map f).getD i d = f i := by
  have hlen : i < ((List.range m).map f).length := by simpa using h
  rw [List.getD_eq_getElem _ _ hlen]
  simp

lemma guard_iff_lt_numSteps (cfg : SimulationConfig)
    (hdt : 0 < cfg.timestep) (k : ℕ) :
    loopGuard cfg (run cfg k) ↔ k < numSteps cfg := by
  rw [loopGuard, run_lastTime, numSteps, Nat.lt_ceil]
  exact (lt_div_iff₀ hdt).symm

lemma run_T0 (cfg : SimulationConfig) (n : ℕ) :
    (run cfg n).T_0 = List.replicate (n + 1) cfg.T0init := by
  induction n with
  | zero => simp [run, initState]
  | succ n ih =>
      rw [run_succ]
      show (run cfg n).T_0 ++ [(run cfg n).T_0.getLastD 0] = _
      rw [ih, getLastD_replicate, ← List.replicate_succ']

/-! ### Claim theorems -/

/-- Claim C1: for every solver step, the new stage temperatures follow the
explicit Euler balances computed from the pre-step temperatures:
T1_new = T1 + (-Q1 + QR1 - QR2) / Cp1 and T2_new = T2 + (-Q2 + QR1) / Cp2,
where Q1 = Qdot1*dt, Q2 = Qdot2*dt, QR1 = QRdot1*dt, QR2 = QRdot2*dt and
Cp1, Cp2 are the heat capacities at the pre-step temperatures; the stage-2
balance adds QR1 and does not subtract QR2. -/
theorem step_euler_balance (cfg : SimulationConfig) (s : SimulationState) :
    (step cfg s).T_1.getLastD 0 =
      s.T_1.getLastD 0 +
        (-(cfg.Qmap1 (s.T_1.getLastD 0) (s.T_2.getLastD 0) * cfg.timestep)
          + cfg.A_1 * cfg.eps1 * stefboltz *
              ((s.T_0.getLastD 0) ^ 4 - (s.T_1.getLastD 0) ^ 4) * cfg.timestep
          - cfg.A_2 * cfg.eps2 * stefboltz *
              ((s.T_1.getLastD 0) ^ 4 - (s.T_2.getLastD 0) ^ 4) * cfg.timestep)
          / (cp_stage1 (s.T_1.getLastD 0) * cfg.m_1) ∧
    (step cfg s).T_2.getLastD 0 =
      s.T_2.getLastD 0 +
        (-(cfg.Qmap2 (s.T_1.getLastD 0) (s.T_2.getLastD 0) * cfg.timestep)
          + cfg.A_1 * cfg.eps1 * stefboltz *
              ((s.T_0.getLastD 0) ^ 4 - (s.T_1.getLastD 0) ^ 4) * cfg.timestep)
          / (cp_stage2 (s.T_2.getLastD 0) * cfg.m_2) := by
  constructor <;> simp [step, List.getLastD_concat]

/-- Claim C2: the reservoir temperature never changes: after every step the
last entry of T_0 equals the last entry before the step, and the whole T_0
series of any run is constant at the configured initial value. -/
theorem reservoir_temperature_constant (cfg : SimulationConfig) (n : ℕ) :
    (run cfg (n + 1)).T_0.getLastD 0 = (run cfg n).T_0.getLastD 0 ∧
    (run cfg n).T_0 = List.replicate (n + 1) cfg.T0init := by
  refine ⟨?_, run_T0 cfg n⟩
  rw [run_T0, run_T0, getLastD_replicate, getLastD_replicate]

/-- Claim C5: for every run with dt > 0 the timestamp sequence is exactly
i * dt at index i, consecutive entries differ by exactly dt, the sequence
is strictly increasing, the final timestamp is the smallest value of the
form k * dt (k natural, initial time 0) that is >= the configured end
time, the loop guard holds at every earlier iteration, and the loop
terminates: the guard fails at the final state. -/
theorem time_axis_monotone (cfg : SimulationConfig) (hdt : 0 < cfg.timestep) :
    (∀ i, i < (finalState cfg).globaltime.length →
        (finalState cfg).globaltime.getD i 0 = (i : ℝ) * cfg.timestep) ∧
    (∀ i, i + 1 < (finalState cfg).globaltime.length →
        (finalState cfg).globaltime.getD (i + 1) 0 =
          (finalState cfg).globaltime.getD i 0 + cfg.timestep) ∧
    (∀ i j, i < j → j < (finalState cfg).globaltime.length →
        (finalState cfg).globaltime.getD i 0 <
          (finalState cfg).globaltime.getD j 0) ∧
    cfg.endtime ≤ (finalState cfg).globaltime.getLastD 0 ∧
    (∀ k : ℕ, cfg.endtime ≤ (k : ℝ) * cfg.timestep →
        (finalState cfg).globaltime.getLastD 0 ≤ (k : ℝ) * cfg.timestep) ∧
    (∀ k, k < numSteps cfg → loopGuard cfg (run cfg k)) ∧
    ¬ loopGuard cfg (finalState cfg) := by
  have hlen : (finalState cfg).globaltime.length = numSteps cfg + 1 :=
    (run_lengths cfg (numSteps cfg)).1
  have hget : ∀ i, i < (finalState cfg).globaltime.length →
      (finalState cfg).globaltime.getD i 0 = (i : ℝ) * cfg.timestep := by
    intro i hi
    rw [hlen] at hi
    rw [finalState, run_globaltime, getD_map_range _ _ _ hi]
  refine ⟨hget, ?_, ?_, ?_, ?_, ?_, ?_⟩
  · intro i hi
    rw [hget _ hi, hget i (Nat.lt_of_succ_lt hi)]
    push_cast
    ring
  · intro i j hij hj
    rw [hget _ hj, hget i (lt_trans hij hj)]
    exact mul_lt_mul_of_pos_right (by exact_mod_cast hij) hdt
  · rw [finalState, run_lastTime]
    exact (div_le_iff₀ hdt).mp (Nat.le_ceil _)
  · intro k hk
    rw [finalState, run_lastTime]
    have hNk : numSteps cfg ≤ k := by
      rw [numSteps, Nat.ceil_le]
      exact (div_le_iff₀ hdt).mpr hk
    exact mul_le_mul_of_nonneg_right
      (by exact_mod_cast hNk : ((numSteps cfg : ℝ) ≤ (k : ℝ))) (le_of_lt hdt)
  · intro k hk
    exact (guard_iff_lt_numSteps cfg hdt k).mpr hk
  · intro h
    exact absurd ((guard_iff_lt_numSteps cfg hdt _).mp h) (lt_irrefl _)

/-- Claim C6: at every observable point of a run all eight recorded
sequences have identical length n + 1 after n steps (so each step extends
each sequence by exactly one entry, and there is no state in which some
sequences have been extended and others not), and every step leaves all
earlier entries unchanged: the pre-step sequences are prefixes of the
post-step ones. -/
theorem history_arrays_aligned (cfg : SimulationConfig) (n : ℕ) :
    ((run cfg n).globaltime.length = n + 1 ∧
     (run cfg n).T_0.length = n + 1 ∧
     (run cfg n).T_1.length = n + 1 ∧
     (run cfg n).T_2.length = n + 1 ∧
     (run cfg n).Qdot1_record.length = n + 1 ∧
     (run cfg n).Qdot2_record.length = n + 1 ∧
     (run cfg n).QRdot1_record.length = n + 1 ∧
     (run cfg n).QRdot2_record.length = n + 1) ∧
    ((run cfg (n + 1)).globaltime.take (n + 1) = (run cfg n).globaltime ∧
     (run cfg (n + 1)).T_0.take (n + 1) = (run cfg n).T_0 ∧
     (run cfg (n + 1)).T_1.take (n + 1) = (run cfg n).T_1 ∧
     (run cfg (n + 1)).T_2.take (n + 1) = (run cfg n).T_2 ∧
     (run cfg (n + 1)).Qdot1_record.take (n + 1) = (run cfg n).Qdot1_record ∧
     (run cfg (n + 1)).Qdot2_record.take (n + 1) = (run cfg n).Qdot2_record ∧
     (run cfg (n + 1)).QRdot1_record.take (n + 1) = (run cfg n).QRdot1_record ∧
     (run cfg (n + 1)).QRdot2_record.take (n + 1) = (run cfg n).QRdot2_record) := by
  obtain ⟨l1, l2, l3, l4, l5, l6, l7, l8⟩ := run_lengths cfg n
  obtain ⟨t1, t2, t3, t4, t5, t6, t7, t8⟩ := step_take cfg (run cfg n)
  rw [l1] at t1
  rw [l2] at t2
  rw [l3] at t3
  rw [l4] at t4
  rw [l5] at t5
  rw [l6] at t6
  rw [l7] at t7
  rw [l8] at t8
  exact ⟨⟨l1, l2, l3, l4, l5, l6, l7, l8⟩, ⟨t1, t2, t3, t4, t5, t6, t7, t8⟩⟩

/-- Claim C10: for every configuration the four heat-flow series and the
timestamp series begin with the value 0 at index 0, at every point of the
run: the initial row's heat flows are the fixed 0.0 sentinels from the
array initializations, independent of the capacity map and the radiative
formula (the configuration, including its capacity-map functions, is
universally quantified here). -/
theorem initial_heat_flows_zero (cfg : SimulationConfig) (n : ℕ) :
    (run cfg n).Qdot1_record.getD 0 0 = 0 ∧
    (run cfg n).Qdot2_record.getD 0 0 = 0 ∧
    (run cfg n).QRdot1_record.getD 0 0 = 0 ∧
    (run cfg n).QRdot2_record.getD 0 0 = 0 ∧
    (run cfg n).globaltime.getD 0 0 = 0 := by
  induction n with
  | zero => exact ⟨rfl, rfl, rfl, rfl, rfl⟩
  | succ n ih =>
      obtain ⟨i1, i2, i3, i4, i5⟩ := ih
      obtain ⟨l1, _, _, _, l5, l6, l7, l8⟩ := run_lengths cfg n
      rw [run_succ]
      simp only [step]
      refine ⟨?_, ?_, ?_, ?_, ?_⟩
      · rw [List.getD_append _ _ _ _ (by rw [l5]; exact Nat.succ_pos n)]
        exact i1
      · rw [List.getD_append _ _ _ _ (by rw [l6]; exact Nat.succ_pos n)]
        exact i2
      · rw [List.getD_append _ _ _ _ (by rw [l7]; exact Nat.succ_pos n)]
        exact i3
      · rw [List.getD_append _ _ _ _ (by rw [l8]; exact Nat.succ_pos n)]
        exact i4
      · rw [List.getD_append _ _ _ _ (by rw [l1]; exact Nat.succ_pos n)]
        exact i5

/-- The source configuration (lines 33-64) with stage 1 started at 0 K
instead of 300 K, and arbitrary capacity-map query functions. -/
noncomputable def zeroKelvinCfg (f g : ℝ → ℝ → ℝ) : SimulationConfig where
  endtime := 5 * 3600
  timestep := 0.1
  A_1 := 0.5
  eps1 := 0.01
  m_1 := 12
  A_2 := 0.5
  eps2 := 0.01
  m_2 := 15
  T0init := 300
  T1init := 0
  T2init := 300
  Qmap1 := f
  Qmap2 := g

/-- Claim C3 (code behaviour at the failing input): the code has no domain
check at all; with stage 1 started at 0 K the run does not fail before any
step executes -- the first step executes (T_1 is extended to 2 entries)
and the whole loop runs its full 180000 iterations, whatever the
capacity-map functions are.  The claim's required abort does not exist in
the code. -/
theorem zero_kelvin_run_executes (f g : ℝ → ℝ → ℝ) :
    numSteps (zeroKelvinCfg f g) = 180000 ∧
    (run (zeroKelvinCfg f g) 1).T_1.length = 2 ∧
    (finalState (zeroKelvinCfg f g)).T_1.length = 180001 := by
  have hN : numSteps (zeroKelvinCfg f g) = 180000 := by
    rw [numSteps]
    have h : (zeroKelvinCfg f g).endtime / (zeroKelvinCfg f g).timestep =
        (180000 : ℝ) := by
      simp only [zeroKelvinCfg]
      norm_num
    rw [h]
    simp
  refine ⟨hN, (run_lengths _ 1).2.2.1, ?_⟩
  rw [finalState, hN]
  exact (run_lengths _ 180000).2.2.1

/-- The source configuration with a non-positive (negative) timestep; the
capacity maps are zero functions (their value never matters below). -/
noncomputable def negativeDtCfg : SimulationConfig where
  endtime := 5 * 3600
  timestep := -0.1
  A_1 := 0.5
  eps1 := 0.01
  m_1 := 12
  A_2 := 0.5
  eps2 := 0.01
  m_2 := 15
  T0init := 300
  T1init := 300
  T2init := 300
  Qmap1 := fun _ _ => 0
  Qmap2 := fun _ _ => 0

/-- Claim C4 (code behaviour at the failing input): no configuration
validation exists.  With timestep = -0.1 s the loop guard holds at every
iteration count k, so the while loop starts and never exits: a malformed
configuration produces a started, non-terminating run rather than a fatal
configuration failure detected before the loop. -/
theorem nonpositive_dt_loop_never_exits (k : ℕ) :
    loopGuard negativeDtCfg (run negativeDtCfg k) := by
  rw [loopGuard, run_lastTime]
  have hk : (0 : ℝ) ≤ (k : ℝ) := Nat.cast_nonneg k
  simp only [negativeDtCfg]
  nlinarith

/-- A small concrete configuration used to witness the time-axis theorem. -/
noncomputable def witnessCfg : SimulationConfig where
  endtime := 2
  timestep := 1
  A_1 := 0.5
  eps1 := 0.01
  m_1 := 12
  A_2 := 0.5
  eps2 := 0.01
  m_2 := 15
  T0init := 300
  T1init := 300
  T2init := 300
  Qmap1 := fun _ _ => 0
  Qmap2 := fun _ _ => 0

/-- Witness for claim C5 at a concrete configuration with dt = 1 s and
end time 2 s: the hypothesis dt > 0 holds and the final timestamp reaches
the end time. -/
theorem time_axis_monotone_witness :
    0 < witnessCfg.timestep ∧
    witnessCfg.endtime ≤ (finalState witnessCfg).globaltime.getLastD 0 :=
  ⟨by norm_num [witnessCfg],
    (time_axis_monotone witnessCfg (by norm_num [witnessCfg])).2.2.2.1⟩

/-- The concrete scenario of spec section 8: dt = 0.1 s, end time 10 s,
reservoir fixed at 300 K, both stages starting at 300 K, masses 12 kg and
15 kg, a capacity map returning 0 W everywhere, areas 0.5 m2 and
emissivities 0.01. -/
noncomputable def scenarioCfg : SimulationConfig where
  endtime := 10
  timestep := 0.1
  A_1 := 0.5
  eps1 := 0.01
  m_1 := 12
  A_2 := 0.5
  eps2 := 0.01
  m_2 := 15
  T0init := 300
  T1init := 300
  T2init := 300
  Qmap1 := fun _ _ => 0
  Qmap2 := fun _ _ => 0

lemma scenario_const (n : ℕ) :
    (run scenarioCfg n).T_1 = List.replicate (n + 1) 300 ∧
    (run scenarioCfg n).T_2 = List.replicate (n + 1) 300 := by
  induction n with
  | zero => constructor <;> simp [run, initState, scenarioCfg]
  | succ n ih =>
      obtain ⟨h1, h2⟩ := ih
      have h0 := run_T0 scenarioCfg n
      have hT0 : (run scenarioCfg n).T_0.getLastD 0 = 300 := by
        rw [h0, getLastD_replicate]
        simp [scenarioCfg]
      have hT1 : (run scenarioCfg n).T_1.getLastD 0 = 300 := by
        rw [h1, getLastD_replicate]
      have hT2 : (run scenarioCfg n).T_2.getLastD 0 = 300 := by
        rw [h2, getLastD_replicate]
      rw [run_succ]
      constructor
      · simp only [step, hT0, hT1, hT2, h1, h2, getLastD_replicate]
        rw [List.replicate_succ' (n + 1)]
        congr 1
        simp [scenarioCfg]
      · simp only [step, hT0, hT1, hT2, h1, h2, getLastD_replicate]
        rw [List.replicate_succ' (n + 1)]
        congr 1
        simp [scenarioCfg]

lemma scenario_numSteps : numSteps scenarioCfg = 100 := by
  rw [numSteps]
  have h : scenarioCfg.endtime / scenarioCfg.timestep = (100 : ℝ) := by
    simp only [scenarioCfg]
    norm_num
  rw [h]
  simp

/-- Claim C9 counterexample: in the concrete scenario (dt = 0.1 s, end
time 10 s, everything at 300 K, zero capacity map) the temperature series
do not decrease at all: after the full run the last stage-1 and stage-2
entries equal the initial 300 K, so neither series is decreasing. -/
theorem scenario_no_decrease :
    (finalState scenarioCfg).T_1.getD 0 0 = 300 ∧
    (finalState scenarioCfg).T_1.getLastD 0 = 300 ∧
    ¬ ((finalState scenarioCfg).T_1.getLastD 0 <
        (finalState scenarioCfg).T_1.getD 0 0) ∧
    (finalState scenarioCfg).T_2.getLastD 0 = 300 ∧
    ¬ ((finalState scenarioCfg).T_2.getLastD 0 <
        (finalState scenarioCfg).T_2.getD 0 0) := by
  obtain ⟨h1, h2⟩ := scenario_const (numSteps scenarioCfg)
  rw [finalState, h1, h2]
  rw [List.replicate_succ]
  refine ⟨rfl, ?_, ?_, ?_, ?_⟩
  · rw [← List.replicate_succ, getLastD_replicate]
  · rw [← List.replicate_succ, getLastD_replicate]
    simp
  · rw [← List.replicate_succ, getLastD_replicate]
  · rw [← List.replicate_succ, getLastD_replicate]
    simp

/-- Claim C9 amended: in the concrete scenario the radiative terms vanish
identically (all three nodes are at the reservoir temperature 300 K), so
both stage series are constant at 300 K: monotonically non-increasing,
never strictly decreasing, and still above 299.9 K after the full
10-second run (100 steps of 0.1 s). -/
theorem scenario_constant_series :
    numSteps scenarioCfg = 100 ∧
    (∀ n, (run scenarioCfg n).T_1 = List.replicate (n + 1) 300 ∧
        (run scenarioCfg n).T_2 = List.replicate (n + 1) 300) ∧
    (∀ i j, i ≤ j → j < (finalState scenarioCfg).T_1.length →
        (finalState scenarioCfg).T_1.getD j 0 ≤
          (finalState scenarioCfg).T_1.getD i 0) ∧
    (∀ i j, i ≤ j → j < (finalState scenarioCfg).T_2.length →
        (finalState scenarioCfg).T_2.getD j 0 ≤
          (finalState scenarioCfg).T_2.getD i 0) ∧
    299.9 < (finalState scenarioCfg).T_1.getLastD 0 ∧
    299.9 < (finalState scenarioCfg).T_2.getLastD 0 := by
  obtain ⟨h1, h2⟩ := scenario_const (numSteps scenarioCfg)
  have hrep : ∀ (m i : ℕ) (d : ℝ), i < m → (List.replicate m (300:ℝ)).getD i d = 300 := by
    intro m i d h
    rw [List.getD_eq_getElem _ _ (by simpa using h)]
    simp
  refine ⟨scenario_numSteps, scenario_const, ?_, ?_, ?_, ?_⟩
  · intro i j hij hj
    rw [finalState, h1] at hj ⊢
    rw [List.length_replicate] at hj
    rw [hrep _ _ _ hj, hrep _ _ _ (lt_of_le_of_lt hij hj)]
  · intro i j hij hj
    rw [finalState, h2] at hj ⊢
    rw [List.length_replicate] at hj
    rw [hrep _ _ _ hj, hrep _ _ _ (lt_of_le_of_lt hij hj)]
  · rw [finalState, h1, getLastD_replicate]
    norm_num
  · rw [finalState, h2, getLastD_replicate]
    norm_num

/-- Claim C8: for every temperature T > 0 the stage-1 and stage-2 specific
heat expressions of the code (lines 106, 111) both equal the spec's
Material Model 10^P(log10 T), P the fixed 7th-degree polynomial with
coefficients (-1.91844, -0.15973, 8.61013, -18.99640, 21.96610,
-12.73280, 3.54322, -0.37970) summed term by term, and heat capacity is
specific heat times mass: the same formula serves both stages. -/
theorem specific_heat_polynomial (T : ℝ) (_h : 0 < T) :
    cp_stage1 T = specificHeat T ∧
    cp_stage2 T = specificHeat T ∧
    ∀ m : ℝ, heatCapacity T m = specificHeat T * m := by
  refine ⟨?_, ?_, fun m => rfl⟩
  · simp only [cp_stage1, specificHeat]
    congr 1
    ring
  · simp only [cp_stage2, specificHeat]
    congr 1
    ring

/-- Witness for claim C8 at T = 2 K, mass 12 kg. -/
theorem specific_heat_polynomial_witness :
    (0 : ℝ) < 2 ∧ cp_stage1 2 = specificHeat 2 ∧ cp_stage2 2 = specificHeat 2 ∧
    heatCapacity 2 12 = specificHeat 2 * 12 :=
  ⟨by norm_num, (specific_heat_polynomial 2 (by norm_num)).1,
    (specific_heat_polynomial 2 (by norm_num)).2.1,
    (specific_heat_polynomial 2 (by norm_num)).2.2 12⟩

end Cryo
